import Mathlib

/-!
Shallow embedding of the `simplegrid` package (src/simplegrid/grid.py and
src/simplegrid/led_grid.py).

Modelling notes:
* Stored objects are modelled by `Value` (Python str / int / tuple-of-int /
  None), covering every value the claims exercise, with Python truthiness
  (`pyTruthy`) and stringification (`pyStr`, matching `str()`).
* Coordinates are `Int` (Python ints); the bounds checks in `get`/`set`/
  `next_in_direction` are translated literally.
* Mutating methods are state passing: `set` returns `Option GridErr × State`,
  where the returned state reflects every assignment executed before a raise
  (Python mutations persist when an exception propagates).
* Error sites are distinguished: the explicit bounds-check raises are
  `outOfRange` (IndexError with "out of grid range"), the
  `GridItemFilledError` raise is `alreadyFilled`, a Python list indexing
  failure on the backing storage is `storageIndex` (also an IndexError at
  runtime, but raised from a different site, on an in-bounds coordinate),
  and the `assert` failures in `LEDGrid.set` are `invalidPixelFormat`.
* `show` prints; it is modelled as producing the list of printed lines
  (`show'`), in print order.
-/

inductive Value where
  | str (s : String)
  | int (n : Int)
  | tup (l : List Int)
  | none
  deriving DecidableEq, Repr

/-- Python truthiness of a stored value (`bool(v)`). -/
def pyTruthy : Value → Bool
  | .str s => !(s == "")
  | .int n => !(n == 0)
  | .tup l => !(l == [])
  | .none => false

/-- Python `str(v)` for the modelled values (tuples print as `(1, 2)`,
singletons as `(1,)`, empty as `()`). -/
def pyStr : Value → String
  | .str s => s
  | .int n => toString n
  | .none => "None"
  | .tup [] => "()"
  | .tup [a] => "(" ++ toString a ++ ",)"
  | .tup l => "(" ++ String.intercalate ", " (l.map toString) ++ ")"

/-- Python `s.center(width, ' ')` (CPython: `left = marg/2 + (marg & width & 1)`). -/
def pyCenter (s : String) (width : Nat) : String :=
  if width ≤ s.length then s
  else
    let marg := width - s.length
    let left := marg / 2 + (marg &&& width &&& 1)
    String.mk (List.replicate left ' ') ++ s ++ String.mk (List.replicate (marg - left) ' ')

inductive GridErr where
  | outOfRange
  | alreadyFilled
  | storageIndex
  | invalidPixelFormat
  deriving DecidableEq, Repr

inductive CartesianDirection where
  | LEFT
  | RIGHT
  | UP
  | DOWN
  deriving DecidableEq, Repr

inductive SerpentinePattern where
  | TOP_LEFT
  | TOP_RIGHT
  deriving DecidableEq, Repr

/-- The Cartesian `Grid` class: nested-list storage plus the public fields. -/
structure Grid where
  grid : List (List Value)
  width : Nat
  height : Nat
  largestlength : Nat
  deriving DecidableEq, Repr

/-- `Grid.__init__` with `data=None`: `height` rows of `width` empty strings,
`largestlength = 3`. -/
def Grid.init (width : Nat := 3) (height : Nat := 3) : Grid :=
  { grid := List.replicate height (List.replicate width (Value.str "")),
    width := width, height := height, largestlength := 3 }

/-- `Grid._get_coordinate`: `self._grid[y][x]` (list indexing may raise). -/
def Grid.get_coordinate (g : Grid) (x y : Nat) : Except GridErr Value :=
  match g.grid[y]? with
  | Option.none => .error .storageIndex
  | Option.some row =>
    match row[x]? with
    | Option.none => .error .storageIndex
    | Option.some v => .ok v

/-- `Grid._set_coordinate`: `self._grid[y][x] = obj` (list assignment may raise). -/
def Grid.set_coordinate (g : Grid) (x y : Nat) (obj : Value) : Except GridErr Grid :=
  match g.grid[y]? with
  | Option.none => .error .storageIndex
  | Option.some row =>
    if x < row.length then
      .ok { g with grid := g.grid.set y (row.set x obj) }
    else .error .storageIndex

/-- `Grid.get`. -/
def Grid.get (g : Grid) (x y : Int) : Except GridErr Value :=
  if x < 0 ∨ (g.width : Int) ≤ x then .error .outOfRange
  else if y < 0 ∨ (g.height : Int) ≤ y then .error .outOfRange
  else g.get_coordinate x.toNat y.toNat

/-- `Grid.set`, translated statement by statement: bounds checks, the
already-filled check (skipped when `allowOverwrite`), the `largestlength`
update, then the storage write.  The returned state reflects the mutations
performed before a raise. -/
def Grid.set (g : Grid) (x y : Int) (obj : Value) (allowOverwrite : Bool := false) :
    Option GridErr × Grid :=
  if x < 0 ∨ (g.width : Int) ≤ x then (Option.some .outOfRange, g)
  else if y < 0 ∨ (g.height : Int) ≤ y then (Option.some .outOfRange, g)
  else
    let filledCheck : Option GridErr :=
      if allowOverwrite then Option.none
      else
        match g.get_coordinate x.toNat y.toNat with
        | .error e => Option.some e
        | .ok v => if pyTruthy v then Option.some .alreadyFilled else Option.none
    match filledCheck with
    | Option.some e => (Option.some e, g)
    | Option.none =>
      let objectlength := (pyStr obj).length
      let g1 :=
        if g.largestlength < objectlength then { g with largestlength := objectlength } else g
      match g1.set_coordinate x.toNat y.toNat obj with
      | .error e => (Option.some e, g1)
      | .ok g2 => (Option.none, g2)

/-- `Grid.all_items`: flatten the nested rows. -/
def Grid.all_items (g : Grid) : List Value := g.grid.flatten

/-- `Grid.by_rows`: the nested rows themselves. -/
def Grid.by_rows (g : Grid) : List (List Value) := g.grid

/-- `Grid.next_in_direction`. -/
def Grid.next_in_direction (g : Grid) (x y : Int) (d : CartesianDirection) :
    Except GridErr (Int × Int) :=
  let p : Int × Int :=
    match d with
    | .LEFT => (x - 1, y)
    | .RIGHT => (x + 1, y)
    | .UP => (x, y - 1)
    | .DOWN => (x, y + 1)
  if p.1 < 0 ∨ (g.width : Int) ≤ p.1 then .error .outOfRange
  else if p.2 < 0 ∨ (g.height : Int) ≤ p.2 then .error .outOfRange
  else .ok p

/-- One border line of `Grid.show`: `'|%s' % ('-' * largestlength) * width + '|'`. -/
def borderLine (width largestlength : Nat) : String :=
  String.join (List.replicate width ("|" ++ String.mk (List.replicate largestlength '-'))) ++ "|"

/-- One cell of `Grid.show`: the value if set (Python `value is None or
value == ''` shows the coordinate label instead), centered to
`max(len(place), largestlength)`. -/
def cellText (largestlength x y : Nat) (v : Value) : String :=
  let place := toString x ++ "," ++ toString y
  let output :=
    match v with
    | .none => place
    | .str "" => place
    | w => pyStr w
  pyCenter output (max place.length largestlength)

/-- The lines printed by `Grid.show`, parameterized by the (overridable)
`get`; a border line first, then each row followed by a border line. -/
def showWith (get : Nat → Nat → Except GridErr Value) (width height largestlength : Nat) :
    Except GridErr (List String) := do
  let body ← (List.range height).mapM (fun y => do
    let cells ← (List.range width).mapM (fun x => do
      let v ← get x y
      pure ("|" ++ cellText largestlength x y v))
    pure [String.join cells ++ "|", borderLine width largestlength])
  pure (borderLine width largestlength :: body.flatten)

/-- `Grid.show` (named `show'` because `show` is a Lean keyword). -/
def Grid.show' (g : Grid) : Except GridErr (List String) :=
  showWith (fun x y => g.get (x : Int) (y : Int)) g.width g.height g.largestlength

/-- Well-formed Cartesian grid: the shape the constructor establishes. -/
def Grid.Wf (g : Grid) : Prop :=
  g.grid.length = g.height ∧ ∀ row ∈ g.grid, row.length = g.width

instance (g : Grid) : Decidable g.Wf := by
  unfold Grid.Wf; infer_instance

/-- The `SerpentineGrid` class: flat storage, a pattern, and the inherited
public fields. -/
structure SerpentineGrid where
  grid : List Value
  pattern : SerpentinePattern
  width : Nat
  height : Nat
  largestlength : Nat
  deriving DecidableEq, Repr

/-- `SerpentineGrid.__init__` with `data=None`: a flat buffer of
`width*height` empty strings (replacing the nested rows the superclass
constructor built). -/
def SerpentineGrid.init (pattern : SerpentinePattern) (width : Nat := 3) (height : Nat := 3) :
    SerpentineGrid :=
  { grid := List.replicate (width * height) (Value.str ""),
    pattern := pattern, width := width, height := height, largestlength := 3 }

/-- `SerpentineGrid._get_serpentine_point`, exactly as written in the source:
`coord = y * self.height` plus the pattern/parity offset.  (Only reached with
`0 ≤ x < width`, where Nat subtraction in `width - x - 1` agrees with Python.) -/
def SerpentineGrid.get_serpentine_point (g : SerpentineGrid) (x y : Nat) : Nat :=
  let coord := y * g.height
  match g.pattern with
  | .TOP_RIGHT => if y % 2 == 0 then coord + (g.width - x - 1) else coord + x
  | .TOP_LEFT => if y % 2 == 0 then coord + x else coord + (g.width - x - 1)

/-- `SerpentineGrid._get_coordinate`: `self._grid[coord]`. -/
def SerpentineGrid.get_coordinate (g : SerpentineGrid) (x y : Nat) : Except GridErr Value :=
  match g.grid[g.get_serpentine_point x y]? with
  | Option.none => .error .storageIndex
  | Option.some v => .ok v

/-- `SerpentineGrid._set_coordinate`: `self._grid[coord] = obj`. -/
def SerpentineGrid.set_coordinate (g : SerpentineGrid) (x y : Nat) (obj : Value) :
    Except GridErr SerpentineGrid :=
  let coord := g.get_serpentine_point x y
  if coord < g.grid.length then .ok { g with grid := g.grid.set coord obj }
  else .error .storageIndex

/-- Inherited `Grid.get`, dispatching to the serpentine `_get_coordinate`. -/
def SerpentineGrid.get (g : SerpentineGrid) (x y : Int) : Except GridErr Value :=
  if x < 0 ∨ (g.width : Int) ≤ x then .error .outOfRange
  else if y < 0 ∨ (g.height : Int) ≤ y then .error .outOfRange
  else g.get_coordinate x.toNat y.toNat

/-- Inherited `Grid.set`, dispatching to the serpentine coordinate hooks. -/
def SerpentineGrid.set (g : SerpentineGrid) (x y : Int) (obj : Value)
    (allowOverwrite : Bool := false) : Option GridErr × SerpentineGrid :=
  if x < 0 ∨ (g.width : Int) ≤ x then (Option.some .outOfRange, g)
  else if y < 0 ∨ (g.height : Int) ≤ y then (Option.some .outOfRange, g)
  else
    let filledCheck : Option GridErr :=
      if allowOverwrite then Option.none
      else
        match g.get_coordinate x.toNat y.toNat with
        | .error e => Option.some e
        | .ok v => if pyTruthy v then Option.some .alreadyFilled else Option.none
    match filledCheck with
    | Option.some e => (Option.some e, g)
    | Option.none =>
      let objectlength := (pyStr obj).length
      let g1 :=
        if g.largestlength < objectlength then { g with largestlength := objectlength } else g
      match g1.set_coordinate x.toNat y.toNat obj with
      | .error e => (Option.some e, g1)
      | .ok g2 => (Option.none, g2)

/-- `SerpentineGrid.all_items`: the flat buffer itself. -/
def SerpentineGrid.all_items (g : SerpentineGrid) : List Value := g.grid

/-- `SerpentineGrid.by_rows`: reconstructs rows by calling `get` per cell. -/
def SerpentineGrid.by_rows (g : SerpentineGrid) : Except GridErr (List (List Value)) :=
  (List.range g.height).mapM (fun y =>
    (List.range g.width).mapM (fun x => g.get (x : Int) (y : Int)))

/-- Inherited `Grid.next_in_direction` (uses only width/height). -/
def SerpentineGrid.next_in_direction (g : SerpentineGrid) (x y : Int) (d : CartesianDirection) :
    Except GridErr (Int × Int) :=
  let p : Int × Int :=
    match d with
    | .LEFT => (x - 1, y)
    | .RIGHT => (x + 1, y)
    | .UP => (x, y - 1)
    | .DOWN => (x, y + 1)
  if p.1 < 0 ∨ (g.width : Int) ≤ p.1 then .error .outOfRange
  else if p.2 < 0 ∨ (g.height : Int) ≤ p.2 then .error .outOfRange
  else .ok p

/-- Inherited `Grid.show` over the serpentine `get`. -/
def SerpentineGrid.show' (g : SerpentineGrid) : Except GridErr (List String) :=
  showWith (fun x y => g.get (x : Int) (y : Int)) g.width g.height g.largestlength

/-- Well-formed serpentine grid: flat buffer of length `width*height`, the
shape the constructor establishes. -/
def SerpentineGrid.Wf (g : SerpentineGrid) : Prop :=
  g.grid.length = g.width * g.height

instance (g : SerpentineGrid) : Decidable g.Wf := by
  unfold SerpentineGrid.Wf; infer_instance

/-- `LEDGrid.set`, operating on the underlying serpentine state: first
`super().set(...)`, then `idx = self._get_serpentine_point(x, y)`, then the
two tuple `assert`s, then `self._ws281x.setPixelColorRGB(idx, *obj)`.  The
third component is the trace of driver calls made during this call
(index together with the tuple components). -/
def LEDGrid.set (g : SerpentineGrid) (x y : Int) (obj : Value) (allowOverwrite : Bool := false) :
    Option GridErr × SerpentineGrid × List (Nat × List Int) :=
  match SerpentineGrid.set g x y obj allowOverwrite with
  | (Option.some e, g1) => (Option.some e, g1, [])
  | (Option.none, g1) =>
    let idx := g1.get_serpentine_point x.toNat y.toNat
    match obj with
    | .tup l =>
      if l.length = 3 ∨ l.length = 4 then (Option.none, g1, [(idx, l)])
      else (Option.some .invalidPixelFormat, g1, [])
    | _ => (Option.some .invalidPixelFormat, g1, [])

/-- The public operations of the grid contract, for stating frame and
monotonicity properties uniformly. -/
inductive GridOp where
  | get (x y : Int)
  | set (x y : Int) (obj : Value) (allowOverwrite : Bool)
  | all_items
  | by_rows
  | next_in_direction (x y : Int) (d : CartesianDirection)
  | render
  deriving DecidableEq, Repr

/-- Every operation except `set` is an observer. -/
def GridOp.isObserver : GridOp → Bool
  | .set _ _ _ _ => false
  | _ => true

inductive OpResult where
  | value (v : Value)
  | items (l : List Value)
  | rows (l : List (List Value))
  | point (p : Int × Int)
  | text (l : List String)
  | done
  deriving DecidableEq, Repr

/-- Run one public operation on a Cartesian grid, state passing. -/
def Grid.run (g : Grid) : GridOp → Except GridErr OpResult × Grid
  | .get x y => ((g.get x y).map OpResult.value, g)
  | .set x y obj a =>
    match g.set x y obj a with
    | (Option.some e, g1) => (.error e, g1)
    | (Option.none, g1) => (.ok .done, g1)
  | .all_items => (.ok (.items g.all_items), g)
  | .by_rows => (.ok (.rows g.by_rows), g)
  | .next_in_direction x y d => ((g.next_in_direction x y d).map OpResult.point, g)
  | .render => ((g.show').map OpResult.text, g)

/-- Run one public operation on a serpentine grid, state passing. -/
def SerpentineGrid.run (g : SerpentineGrid) : GridOp → Except GridErr OpResult × SerpentineGrid
  | .get x y => ((g.get x y).map OpResult.value, g)
  | .set x y obj a =>
    match g.set x y obj a with
    | (Option.some e, g1) => (.error e, g1)
    | (Option.none, g1) => (.ok .done, g1)
  | .all_items => (.ok (.items g.all_items), g)
  | .by_rows => ((g.by_rows).map OpResult.rows, g)
  | .next_in_direction x y d => ((g.next_in_direction x y d).map OpResult.point, g)
  | .render => ((g.show').map OpResult.text, g)

/-- A value accepted by `LEDGrid.set`'s asserts: a 3- or 4-element tuple. -/
def isPixelTuple : Value → Bool
  | .tup l => l.length == 3 || l.length == 4
  | _ => false

/-- A 3×3 Grid whose (0, 0) cell holds the (truthy) string "A". -/
def demoFilledGrid : Grid := ((Grid.init 3 3).set 0 0 (Value.str "A") false).2

/-! ### Helper lemmas -/

/-- Row stride `h` with offsets below `w` stays inside `w*h` exactly in the
square-or-flat regimes. -/
theorem stride_bound {w h y off : Nat} (hy : y < h) (hoff : off < w)
    (hdim : h ≤ w ∨ h ≤ 1) : y * h + off < w * h := by
  rcases hdim with hd | hd
  · obtain ⟨k, rfl⟩ : ∃ k, h = k + 1 := ⟨h - 1, by omega⟩
    have h1 : y * (k + 1) ≤ k * (k + 1) := Nat.mul_le_mul_right _ (by omega)
    have h2 : k * (k + 1) ≤ k * w := Nat.mul_le_mul_left _ hd
    have h3 : k * w + w = w * (k + 1) := by ring
    omega
  · have hh : h = 1 := by omega
    subst hh
    omega

/-- In-bounds serpentine indices stay inside the buffer when
`height ≤ width` or `height ≤ 1`. -/
theorem SerpentineGrid.get_serpentine_point_lt (g : SerpentineGrid)
    (hdim : g.height ≤ g.width ∨ g.height ≤ 1) {x y : Nat}
    (hx : x < g.width) (hy : y < g.height) :
    g.get_serpentine_point x y < g.width * g.height := by
  unfold SerpentineGrid.get_serpentine_point
  dsimp only
  split <;> split <;> exact stride_bound hy (by omega) hdim

/-- `SerpentineGrid._set_coordinate` succeeding changes only the buffer
contents, keeping its length. -/
theorem SerpentineGrid.set_coordinate_shape (g : SerpentineGrid) (x y : Nat) (v : Value)
    (g2 : SerpentineGrid) (h : g.set_coordinate x y v = .ok g2) :
    g2.width = g.width ∧ g2.height = g.height ∧ g2.pattern = g.pattern ∧
    g2.grid.length = g.grid.length ∧ g2.largestlength = g.largestlength := by
  unfold SerpentineGrid.set_coordinate at h
  dsimp only at h
  split at h
  · injection h with h2
    subst h2
    exact ⟨rfl, rfl, rfl, by simp, rfl⟩
  · cases h

/-- `SerpentineGrid.set` never changes width, height, pattern, or the buffer
length, and `largestlength` only ever grows. -/
theorem SerpentineGrid.set_shape (g : SerpentineGrid) (x y : Int) (v : Value) (a : Bool) :
    (g.set x y v a).2.width = g.width ∧ (g.set x y v a).2.height = g.height ∧
    (g.set x y v a).2.pattern = g.pattern ∧ (g.set x y v a).2.grid.length = g.grid.length ∧
    g.largestlength ≤ (g.set x y v a).2.largestlength := by
  unfold SerpentineGrid.set
  split
  · simp
  split
  · simp
  dsimp only
  split
  · simp
  split
  · rename_i e heq
    dsimp only
    refine ⟨?_, ?_, ?_, ?_, ?_⟩ <;> · split <;> first | rfl | (dsimp only; omega)
  · rename_i g2 heq
    obtain ⟨hw, hh, hp, hg, hl⟩ := SerpentineGrid.set_coordinate_shape _ _ _ _ _ heq
    dsimp only
    refine ⟨?_, ?_, ?_, ?_, ?_⟩
    · rw [hw]; split <;> rfl
    · rw [hh]; split <;> rfl
    · rw [hp]; split <;> rfl
    · rw [hg]; split <;> rfl
    · rw [hl]; split
      · rename_i hc; dsimp only; omega
      · exact Nat.le_refl _

/-- The serpentine index depends only on width, height and pattern. -/
theorem SerpentineGrid.point_congr (g g' : SerpentineGrid) (hw : g'.width = g.width)
    (hh : g'.height = g.height) (hp : g'.pattern = g.pattern) (x y : Nat) :
    g'.get_serpentine_point x y = g.get_serpentine_point x y := by
  unfold SerpentineGrid.get_serpentine_point
  rw [hw, hh, hp]

/-- A successful `get` pins down the bounds and the buffer slot. -/
theorem SerpentineGrid.get_ok_inv (g : SerpentineGrid) (x y : Int) (c : Value)
    (h : g.get x y = .ok c) :
    ¬(x < 0 ∨ (g.width : Int) ≤ x) ∧ ¬(y < 0 ∨ (g.height : Int) ≤ y) ∧
    g.get_serpentine_point x.toNat y.toNat < g.grid.length ∧
    g.grid[g.get_serpentine_point x.toNat y.toNat]? = some c := by
  unfold SerpentineGrid.get at h
  split at h
  · cases h
  split at h
  · cases h
  unfold SerpentineGrid.get_coordinate at h
  split at h
  · cases h
  · rename_i v0 hv
    injection h with h
    subst h
    refine ⟨by assumption, by assumption, ?_, hv⟩
    by_contra hlen
    rw [List.getElem?_eq_none (by omega)] at hv
    cases hv

/-- Inversion for a successful `_set_coordinate`. -/
theorem SerpentineGrid.set_coordinate_ok_inv (g : SerpentineGrid) (x y : Nat) (v : Value)
    (g2 : SerpentineGrid) (h : g.set_coordinate x y v = .ok g2) :
    g.get_serpentine_point x y < g.grid.length ∧
    g2 = { g with grid := g.grid.set (g.get_serpentine_point x y) v } := by
  unfold SerpentineGrid.set_coordinate at h
  dsimp only at h
  split at h
  · refine ⟨by assumption, ?_⟩
    injection h with h2
    exact h2.symm
  · cases h

/-- A successful `set` stores the value where the inherited `get` reads it
back: the round-trip property, with no assumption beyond success. -/
theorem SerpentineGrid.set_ok_roundtrip (g : SerpentineGrid) (x y : Int) (v : Value) (a : Bool)
    (g1 : SerpentineGrid) (h : g.set x y v a = (Option.none, g1)) :
    g1.get x y = .ok v := by
  unfold SerpentineGrid.set at h
  split at h
  · cases h
  split at h
  · cases h
  rename_i hbx hby
  dsimp only at h
  split at h
  · cases h
  split at h
  · simp at h
  · rename_i g2 heq
    injection h with h1 h2
    subst h2
    obtain ⟨hcoord, rfl⟩ := SerpentineGrid.set_coordinate_ok_inv _ _ _ _ _ heq
    by_cases hl : g.largestlength < (pyStr v).length <;>
      [rw [if_pos hl] at hcoord ⊢; rw [if_neg hl] at hcoord ⊢] <;>
      · unfold SerpentineGrid.get
        dsimp only
        rw [if_neg hbx, if_neg hby]
        unfold SerpentineGrid.get_coordinate
        simp only [SerpentineGrid.get_serpentine_point] at hcoord ⊢
        rw [List.getElem?_set_eq_of_lt v (by simpa using hcoord)]

/-- `_set_coordinate` can only fail with a storage-index error. -/
theorem SerpentineGrid.set_coordinate_err_inv (g : SerpentineGrid) (x y : Nat) (v : Value)
    (e : GridErr) (h : g.set_coordinate x y v = .error e) : e = .storageIndex := by
  unfold SerpentineGrid.set_coordinate at h
  dsimp only at h
  split at h
  · cases h
  · injection h with h
    exact h.symm

/-- When `set` raises the explicit `OutOfRange` or `AlreadyFilled` errors, the
state is exactly the input state. -/
theorem SerpentineGrid.set_err_frame (g : SerpentineGrid) (x y : Int) (v : Value) (a : Bool)
    (e : GridErr) (g1 : SerpentineGrid) (h : g.set x y v a = (Option.some e, g1))
    (he : e = .outOfRange ∨ e = .alreadyFilled) : g1 = g := by
  unfold SerpentineGrid.set at h
  split at h
  · injection h with h1 h2
    exact h2.symm
  split at h
  · injection h with h1 h2
    exact h2.symm
  dsimp only at h
  split at h
  · injection h with h1 h2
    exact h2.symm
  split at h
  · rename_i e2 heq
    injection h with h1 h2
    injection h1 with h1
    subst h1
    have := SerpentineGrid.set_coordinate_err_inv _ _ _ _ _ heq
    subst this
    rcases he with he | he <;> cases he
  · cases h

/-- `_set_coordinate` succeeds whenever the slot is inside the buffer. -/
theorem SerpentineGrid.set_coordinate_ok (g : SerpentineGrid) (x y : Nat) (v : Value)
    (h : g.get_serpentine_point x y < g.grid.length) :
    g.set_coordinate x y v = .ok { g with grid := g.grid.set (g.get_serpentine_point x y) v } := by
  unfold SerpentineGrid.set_coordinate
  dsimp only
  rw [if_pos h]

/-- `set` succeeds when the coordinate is in bounds, the serpentine slot is
inside the buffer, and either overwriting is allowed or the slot holds a
falsy value. -/
theorem SerpentineGrid.set_ok (g : SerpentineGrid) (x y : Int) (v : Value) (a : Bool)
    (hbx : ¬(x < 0 ∨ (g.width : Int) ≤ x)) (hby : ¬(y < 0 ∨ (g.height : Int) ≤ y))
    (hcoord : g.get_serpentine_point x.toNat y.toNat < g.grid.length)
    (hpass : a = true ∨
      ∃ c, g.grid[g.get_serpentine_point x.toNat y.toNat]? = some c ∧ pyTruthy c = false) :
    (g.set x y v a).1 = Option.none := by
  unfold SerpentineGrid.set
  rw [if_neg hbx, if_neg hby]
  dsimp only
  split
  · rename_i e hfc
    exfalso
    rcases hpass with ha | ⟨c, hc, htr⟩
    · rw [if_pos ha] at hfc
      cases hfc
    · by_cases ha2 : a = true
      · rw [if_pos ha2] at hfc
        cases hfc
      · rw [if_neg ha2] at hfc
        unfold SerpentineGrid.get_coordinate at hfc
        rw [hc] at hfc
        dsimp only at hfc
        rw [htr] at hfc
        simp at hfc
  · split
    · rename_i e heq
      exfalso
      by_cases hl : g.largestlength < (pyStr v).length
      · rw [if_pos hl] at heq
        rw [SerpentineGrid.set_coordinate_ok
          { grid := g.grid, pattern := g.pattern, width := g.width, height := g.height,
            largestlength := (pyStr v).length } x.toNat y.toNat v hcoord] at heq
        cases heq
      · rw [if_neg hl] at heq
        rw [SerpentineGrid.set_coordinate_ok g x.toNat y.toNat v hcoord] at heq
        cases heq
    · rfl

/-- With overwriting forbidden, `set` raises `AlreadyFilled` exactly when the
value `get` returns at (x, y) is truthy. -/
theorem SerpentineGrid.set_filled_iff (g : SerpentineGrid) (x y : Int) (v : Value) (c : Value)
    (hget : g.get x y = .ok c) :
    ((g.set x y v false).1 = Option.some .alreadyFilled ↔ pyTruthy c = true) := by
  obtain ⟨hbx, hby, hcoord, hslot⟩ := SerpentineGrid.get_ok_inv _ _ _ _ hget
  by_cases ht : pyTruthy c = true
  · simp only [ht, iff_true]
    unfold SerpentineGrid.set
    rw [if_neg hbx, if_neg hby]
    dsimp only
    split
    · rename_i e hfc
      rw [if_neg (by simp)] at hfc
      unfold SerpentineGrid.get_coordinate at hfc
      rw [hslot] at hfc
      dsimp only at hfc
      rw [if_pos ht] at hfc
      injection hfc with hfc
      subst hfc
      rfl
    · rename_i hfc
      rw [if_neg (by simp)] at hfc
      unfold SerpentineGrid.get_coordinate at hfc
      rw [hslot] at hfc
      dsimp only at hfc
      rw [if_pos ht] at hfc
      cases hfc
  · have hok := SerpentineGrid.set_ok g x y v false hbx hby hcoord
      (Or.inr ⟨c, hslot, by simpa using ht⟩)
    rw [hok]
    simp [ht]

/-- A successful Cartesian `get` pins down the bounds, the row and the cell. -/
theorem Grid.cart_get_ok_inv (g : Grid) (x y : Int) (c : Value) (h : g.get x y = .ok c) :
    ¬(x < 0 ∨ (g.width : Int) ≤ x) ∧ ¬(y < 0 ∨ (g.height : Int) ≤ y) ∧
    ∃ row, g.grid[y.toNat]? = some row ∧ row[x.toNat]? = some c := by
  unfold Grid.get at h
  split at h
  · cases h
  split at h
  · cases h
  unfold Grid.get_coordinate at h
  split at h
  · cases h
  · rename_i row hrow
    split at h
    · cases h
    · rename_i v0 hv
      injection h with h
      subst h
      exact ⟨by assumption, by assumption, row, hrow, hv⟩

/-- Cartesian `_set_coordinate` succeeds when the row exists and the column is
inside it. -/
theorem Grid.cart_set_coordinate_ok (g : Grid) (x y : Nat) (v : Value) (row : List Value)
    (hrow : g.grid[y]? = some row) (hx : x < row.length) :
    g.set_coordinate x y v = .ok { g with grid := g.grid.set y (row.set x v) } := by
  unfold Grid.set_coordinate
  rw [hrow]
  dsimp only
  rw [if_pos hx]

/-- Inversion for a successful Cartesian `_set_coordinate`. -/
theorem Grid.cart_set_coordinate_ok_inv (g : Grid) (x y : Nat) (v : Value) (g2 : Grid)
    (h : g.set_coordinate x y v = .ok g2) :
    ∃ row, g.grid[y]? = some row ∧ x < row.length ∧
      g2 = { g with grid := g.grid.set y (row.set x v) } := by
  unfold Grid.set_coordinate at h
  split at h
  · cases h
  · rename_i row hrow
    split at h
    · rename_i hx
      injection h with h2
      exact ⟨row, hrow, hx, h2.symm⟩
    · cases h

/-- Cartesian `_set_coordinate` can only fail with a storage-index error. -/
theorem Grid.cart_set_coordinate_err_inv (g : Grid) (x y : Nat) (v : Value) (e : GridErr)
    (h : g.set_coordinate x y v = .error e) : e = .storageIndex := by
  unfold Grid.set_coordinate at h
  split at h
  · injection h with h
    exact h.symm
  · rename_i row hrow
    split at h
    · cases h
    · injection h with h
      exact h.symm

/-- Cartesian `set` never changes width or height, and `largestlength` only
ever grows. -/
theorem Grid.cart_set_shape (g : Grid) (x y : Int) (v : Value) (a : Bool) :
    (g.set x y v a).2.width = g.width ∧ (g.set x y v a).2.height = g.height ∧
    g.largestlength ≤ (g.set x y v a).2.largestlength := by
  unfold Grid.set
  split
  · simp
  split
  · simp
  dsimp only
  split
  · simp
  split
  · rename_i e heq
    dsimp only
    refine ⟨?_, ?_, ?_⟩ <;> · split <;> first | rfl | (dsimp only; omega)
  · rename_i g2 heq
    obtain ⟨row, hrow, hx, rfl⟩ := Grid.cart_set_coordinate_ok_inv _ _ _ _ _ heq
    dsimp only
    refine ⟨?_, ?_, ?_⟩ <;> · split <;> first | rfl | (dsimp only; omega)

/-- When Cartesian `set` raises `OutOfRange` or `AlreadyFilled`, the state is
exactly the input state. -/
theorem Grid.cart_set_err_frame (g : Grid) (x y : Int) (v : Value) (a : Bool)
    (e : GridErr) (g1 : Grid) (h : g.set x y v a = (Option.some e, g1))
    (he : e = .outOfRange ∨ e = .alreadyFilled) : g1 = g := by
  unfold Grid.set at h
  split at h
  · injection h with h1 h2
    exact h2.symm
  split at h
  · injection h with h1 h2
    exact h2.symm
  dsimp only at h
  split at h
  · injection h with h1 h2
    exact h2.symm
  split at h
  · rename_i e2 heq
    injection h with h1 h2
    injection h1 with h1
    subst h1
    have := Grid.cart_set_coordinate_err_inv _ _ _ _ _ heq
    subst this
    rcases he with he | he <;> cases he
  · cases h

/-- Cartesian `set` succeeds when the row exists, the column is inside it,
and either overwriting is allowed or the cell holds a falsy value. -/
theorem Grid.cart_set_ok (g : Grid) (x y : Int) (v : Value) (a : Bool) (row : List Value)
    (hbx : ¬(x < 0 ∨ (g.width : Int) ≤ x)) (hby : ¬(y < 0 ∨ (g.height : Int) ≤ y))
    (hrow : g.grid[y.toNat]? = some row) (hx : x.toNat < row.length)
    (hpass : a = true ∨ ∃ c, row[x.toNat]? = some c ∧ pyTruthy c = false) :
    (g.set x y v a).1 = Option.none := by
  unfold Grid.set
  rw [if_neg hbx, if_neg hby]
  dsimp only
  split
  · rename_i e hfc
    exfalso
    rcases hpass with ha | ⟨c, hc, htr⟩
    · rw [if_pos ha] at hfc
      cases hfc
    · by_cases ha2 : a = true
      · rw [if_pos ha2] at hfc
        cases hfc
      · rw [if_neg ha2] at hfc
        unfold Grid.get_coordinate at hfc
        rw [hrow] at hfc
        dsimp only at hfc
        rw [hc] at hfc
        dsimp only at hfc
        rw [htr] at hfc
        simp at hfc
  · split
    · rename_i e heq
      exfalso
      by_cases hl : g.largestlength < (pyStr v).length
      · rw [if_pos hl] at heq
        rw [Grid.cart_set_coordinate_ok { g with largestlength := (pyStr v).length }
          x.toNat y.toNat v row hrow hx] at heq
        cases heq
      · rw [if_neg hl] at heq
        rw [Grid.cart_set_coordinate_ok g x.toNat y.toNat v row hrow hx] at heq
        cases heq
    · rfl

/-- A successful Cartesian `set` stores the value where `get` reads it back. -/
theorem Grid.cart_set_ok_roundtrip (g : Grid) (x y : Int) (v : Value) (a : Bool)
    (g1 : Grid) (h : g.set x y v a = (Option.none, g1)) :
    g1.get x y = .ok v := by
  unfold Grid.set at h
  split at h
  · cases h
  split at h
  · cases h
  rename_i hbx hby
  dsimp only at h
  split at h
  · cases h
  split at h
  · simp at h
  · rename_i g2 heq
    injection h with h1 h2
    subst h2
    obtain ⟨row, hrow, hx, rfl⟩ := Grid.cart_set_coordinate_ok_inv _ _ _ _ _ heq
    have hrow2 : g.grid[y.toNat]? = some row := by
      by_cases hl : g.largestlength < (pyStr v).length
      · rw [if_pos hl] at hrow
        exact hrow
      · rw [if_neg hl] at hrow
        exact hrow
    have hylen : y.toNat < g.grid.length := by
      by_contra hc
      rw [List.getElem?_eq_none (by omega)] at hrow2
      cases hrow2
    by_cases hl : g.largestlength < (pyStr v).length
    · rw [if_pos hl]
      unfold Grid.get
      dsimp only
      rw [if_neg hbx, if_neg hby]
      unfold Grid.get_coordinate
      dsimp only
      rw [List.getElem?_set_eq_of_lt (row.set x.toNat v) (by simpa using hylen)]
      dsimp only
      rw [List.getElem?_set_eq_of_lt v hx]
    · rw [if_neg hl]
      unfold Grid.get
      dsimp only
      rw [if_neg hbx, if_neg hby]
      unfold Grid.get_coordinate
      dsimp only
      rw [List.getElem?_set_eq_of_lt (row.set x.toNat v) (by simpa using hylen)]
      dsimp only
      rw [List.getElem?_set_eq_of_lt v hx]

/-- With overwriting forbidden, Cartesian `set` raises `AlreadyFilled` exactly
when the value `get` returns at (x, y) is truthy. -/
theorem Grid.cart_set_filled_iff (g : Grid) (x y : Int) (v : Value) (c : Value)
    (hget : g.get x y = .ok c) :
    ((g.set x y v false).1 = Option.some .alreadyFilled ↔ pyTruthy c = true) := by
  obtain ⟨hbx, hby, row, hrow, hcell⟩ := Grid.cart_get_ok_inv _ _ _ _ hget
  have hx : x.toNat < row.length := by
    by_contra hc
    rw [List.getElem?_eq_none (by omega)] at hcell
    cases hcell
  by_cases ht : pyTruthy c = true
  · simp only [ht, iff_true]
    unfold Grid.set
    rw [if_neg hbx, if_neg hby]
    dsimp only
    split
    · rename_i e hfc
      rw [if_neg (by simp)] at hfc
      unfold Grid.get_coordinate at hfc
      rw [hrow] at hfc
      dsimp only at hfc
      rw [hcell] at hfc
      dsimp only at hfc
      rw [if_pos ht] at hfc
      injection hfc with hfc
      subst hfc
      rfl
    · rename_i hfc
      rw [if_neg (by simp)] at hfc
      unfold Grid.get_coordinate at hfc
      rw [hrow] at hfc
      dsimp only at hfc
      rw [hcell] at hfc
      dsimp only at hfc
      rw [if_pos ht] at hfc
      cases hfc
  · have hok := Grid.cart_set_ok g x y v false row hbx hby hrow hx
      (Or.inr ⟨c, hcell, by simpa using ht⟩)
    rw [hok]
    simp [ht]

/-- Observer operations leave a Cartesian grid unchanged. -/
theorem Grid.cart_run_observer_frame (g : Grid) (op : GridOp) (hop : op.isObserver = true) :
    (g.run op).2 = g := by
  cases op <;> first | rfl | exact Bool.noConfusion hop

/-- Observer operations leave a serpentine grid unchanged. -/
theorem SerpentineGrid.run_observer_frame (g : SerpentineGrid) (op : GridOp)
    (hop : op.isObserver = true) : (g.run op).2 = g := by
  cases op <;> first | rfl | exact Bool.noConfusion hop

/-- Any operation that raises `OutOfRange` or `AlreadyFilled` leaves a
Cartesian grid unchanged. -/
theorem Grid.cart_run_err_frame (g : Grid) (op : GridOp) (e : GridErr) (g1 : Grid)
    (h : g.run op = (.error e, g1)) (he : e = .outOfRange ∨ e = .alreadyFilled) : g1 = g := by
  cases op
  case set x y v a =>
    simp only [Grid.run] at h
    split at h
    · rename_i e2 g2 heq
      injection h with h1 h2
      injection h1 with h1
      subst h1 h2
      exact Grid.cart_set_err_frame _ _ _ _ _ _ _ heq he
    · rename_i g2 heq
      injection h with h1 h2
      exact Except.noConfusion h1
  all_goals (injection h with h1 h2; exact h2.symm)

/-- Any operation that raises `OutOfRange` or `AlreadyFilled` leaves a
serpentine grid unchanged. -/
theorem SerpentineGrid.run_err_frame (g : SerpentineGrid) (op : GridOp) (e : GridErr)
    (g1 : SerpentineGrid) (h : g.run op = (.error e, g1))
    (he : e = .outOfRange ∨ e = .alreadyFilled) : g1 = g := by
  cases op
  case set x y v a =>
    simp only [SerpentineGrid.run] at h
    split at h
    · rename_i e2 g2 heq
      injection h with h1 h2
      injection h1 with h1
      subst h1 h2
      exact SerpentineGrid.set_err_frame _ _ _ _ _ _ _ heq he
    · rename_i g2 heq
      injection h with h1 h2
      exact Except.noConfusion h1
  all_goals (injection h with h1 h2; exact h2.symm)

/-- `largestlength` never decreases across any single operation. -/
theorem Grid.run_largest_mono (g : Grid) (op : GridOp) :
    g.largestlength ≤ (g.run op).2.largestlength := by
  cases op
  case set x y v a =>
    simp only [Grid.run]
    split <;> rename_i g2 heq <;>
      simpa [heq] using (Grid.cart_set_shape g x y v a).2.2
  all_goals exact Nat.le_refl _

/-- `largestlength` never decreases across any sequence of operations. -/
theorem Grid.runs_largest_mono (g : Grid) (ops : List GridOp) :
    g.largestlength ≤ (ops.foldl (fun s op => (Grid.run s op).2) g).largestlength := by
  induction ops generalizing g with
  | nil => exact Nat.le_refl _
  | cons op ops ih => exact le_trans (Grid.run_largest_mono g op) (ih ((Grid.run g op).2))

/-- A successful Cartesian `set` updates `largestlength` to the running
maximum with the stringified length of the stored value. -/
theorem Grid.cart_set_ok_largest (g : Grid) (x y : Int) (v : Value) (a : Bool) (g1 : Grid)
    (h : g.set x y v a = (Option.none, g1)) :
    g1.largestlength = max g.largestlength (pyStr v).length := by
  unfold Grid.set at h
  split at h
  · cases h
  split at h
  · cases h
  dsimp only at h
  split at h
  · cases h
  split at h
  · simp at h
  · rename_i g2 heq
    injection h with h1 h2
    subst h2
    obtain ⟨row, hrow, hx, rfl⟩ := Grid.cart_set_coordinate_ok_inv _ _ _ _ _ heq
    by_cases hl : g.largestlength < (pyStr v).length
    · rw [if_pos hl]
      dsimp only
      omega
    · rw [if_neg hl]
      dsimp only
      omega

/-- Claim C2: on a 2-wide, 3-high serpentine grid the linear indices produced by
`_get_serpentine_point` are [0, 1, 4, 3, 6, 7]: indices 6 and 7 escape
[0, width*height) and 2, 5 are never produced, so the map is not a bijection
onto {0, ..., width*height - 1}. -/
theorem serpentine_index_not_bijective_2x3 :
    ((List.range 3).flatMap fun y => (List.range 2).map fun x =>
      (SerpentineGrid.init .TOP_LEFT 2 3).get_serpentine_point x y) = [0, 1, 4, 3, 6, 7] ∧
    ¬ (SerpentineGrid.init .TOP_LEFT 2 3).get_serpentine_point 0 2 < 2 * 3 := by
  constructor
  · rfl
  · decide

/-- Claim C7 counterexample: on a freshly constructed default 3×3 Grid, the first
content row printed by `show` is "|0,0|1,0|2,0|" — the cells are centered to
width max(len("0,0"), largestlength) = 3, so they carry no surrounding
spaces, refuting the claimed "| 0,0 | 1,0 | 2,0 |". -/
theorem show_default_3x3_unpadded :
    (Grid.init 3 3).show' =
      .ok ["|---|---|---|", "|0,0|1,0|2,0|", "|---|---|---|", "|0,1|1,1|2,1|",
           "|---|---|---|", "|0,2|1,2|2,2|", "|---|---|---|"] ∧
    "|0,0|1,0|2,0|" ≠ "| 0,0 | 1,0 | 2,0 |" := by
  constructor
  · rfl
  · decide

/-- Claim C7 (amended): the rendering of a default 3×3 Grid: top border
`|---|---|---|`, content rows `|0,0|1,0|2,0|` (each cell centered to width
max(label length, largestlength) = 3, hence unpadded), a border line between
every row and at the bottom. -/
theorem show_default_3x3_lines :
    (Grid.init 3 3).show' =
      .ok ["|---|---|---|", "|0,0|1,0|2,0|", "|---|---|---|", "|0,1|1,1|2,1|",
           "|---|---|---|", "|0,2|1,2|2,2|", "|---|---|---|"] := rfl

/-- Claim C3 counterexample: on a 2-wide, 3-high TOP_LEFT serpentine grid the
in-bounds point (0, 2) maps to index 6, outside the 6-slot buffer, so
`set(0, 2, v, allowOverwrite=true)` raises instead of succeeding. -/
theorem serpentine_roundtrip_fails_2x3 :
    ((SerpentineGrid.init .TOP_LEFT 2 3).set 0 2 (Value.str "A") true).1 ≠ Option.none := by
  decide

/-- Claim C8 counterexample: on a 2-wide, 3-high TOP_RIGHT serpentine grid the
in-bounds point (1, 2) maps to index 6, outside the 6-slot buffer, so
`set(1, 2, v, allow_overwrite=true)` raises instead of succeeding and
replacing the value. -/
theorem serpentine_overwrite_fails_2x3 :
    ((SerpentineGrid.init .TOP_RIGHT 2 3).set 1 2 (Value.int 9) true).1 ≠ Option.none := by
  decide

/-- Claim C1 counterexample: `LEDGrid.set(0, 0, "red")` on a fresh 3×3 grid raises
`InvalidPixelFormat` and never calls the driver, but the backing storage has
already been mutated ("red" is stored at slot 0) when the assert fires. -/
theorem ledgrid_set_string_mutates_storage :
    (LEDGrid.set (SerpentineGrid.init .TOP_LEFT 3 3) 0 0 (Value.str "red") false).1
      = Option.some GridErr.invalidPixelFormat ∧
    (LEDGrid.set (SerpentineGrid.init .TOP_LEFT 3 3) 0 0 (Value.str "red") false).2.2 = [] ∧
    (LEDGrid.set (SerpentineGrid.init .TOP_LEFT 3 3) 0 0 (Value.str "red") false).2.1.grid
      ≠ (SerpentineGrid.init .TOP_LEFT 3 3).grid := by
  refine ⟨rfl, rfl, ?_⟩
  decide

/-- Claim C3 (amended): for every well-formed Grid and every in-bounds (x, y) and
every value v, `set(x, y, v, allowOverwrite=true)` succeeds and a subsequent
`get(x, y)` returns v; the same holds for every well-formed SerpentineGrid
whose shape keeps the serpentine indices inside the buffer, i.e. whenever
height ≤ width or height ≤ 1 (for width < height ≠ 1 some in-bounds points
fall outside the buffer, see the counterexample). -/
theorem set_get_roundtrip :
    (∀ (g : Grid), g.Wf → ∀ (x y : Int) (v : Value),
        0 ≤ x → x < (g.width : Int) → 0 ≤ y → y < (g.height : Int) →
        (g.set x y v true).1 = Option.none ∧ (g.set x y v true).2.get x y = .ok v) ∧
    (∀ (g : SerpentineGrid), g.Wf → (g.height ≤ g.width ∨ g.height ≤ 1) →
        ∀ (x y : Int) (v : Value),
        0 ≤ x → x < (g.width : Int) → 0 ≤ y → y < (g.height : Int) →
        (g.set x y v true).1 = Option.none ∧ (g.set x y v true).2.get x y = .ok v) := by
  constructor
  · intro g hwf x y v hx0 hxw hy0 hyh
    have hbx : ¬(x < 0 ∨ (g.width : Int) ≤ x) := by omega
    have hby : ¬(y < 0 ∨ (g.height : Int) ≤ y) := by omega
    have hy' : y.toNat < g.grid.length := by rw [hwf.1]; omega
    have hrow : g.grid[y.toNat]? = some (g.grid[y.toNat]) := List.getElem?_eq_getElem hy'
    have hx' : x.toNat < (g.grid[y.toNat]).length := by
      rw [hwf.2 _ (List.getElem_mem hy')]
      omega
    have h1 := Grid.cart_set_ok g x y v true _ hbx hby hrow hx' (Or.inl rfl)
    have hset : g.set x y v true = (Option.none, (g.set x y v true).2) := by rw [← h1]
    exact ⟨h1, Grid.cart_set_ok_roundtrip _ _ _ _ _ _ hset⟩
  · intro g hwf hdim x y v hx0 hxw hy0 hyh
    have hbx : ¬(x < 0 ∨ (g.width : Int) ≤ x) := by omega
    have hby : ¬(y < 0 ∨ (g.height : Int) ≤ y) := by omega
    have hcoord : g.get_serpentine_point x.toNat y.toNat < g.grid.length := by
      rw [hwf]
      exact SerpentineGrid.get_serpentine_point_lt g hdim (by omega) (by omega)
    have h1 := SerpentineGrid.set_ok g x y v true hbx hby hcoord (Or.inl rfl)
    have hset : g.set x y v true = (Option.none, (g.set x y v true).2) := by rw [← h1]
    exact ⟨h1, SerpentineGrid.set_ok_roundtrip _ _ _ _ _ _ hset⟩

/-- Witness for the round-trip theorem at concrete inputs. -/
theorem set_get_roundtrip_witness :
    (((Grid.init 3 3).set 1 2 (Value.str "A") true).1 = Option.none ∧
      ((Grid.init 3 3).set 1 2 (Value.str "A") true).2.get 1 2 = .ok (Value.str "A")) ∧
    (((SerpentineGrid.init .TOP_RIGHT 3 3).set 2 1 (Value.int 7) true).1 = Option.none ∧
      ((SerpentineGrid.init .TOP_RIGHT 3 3).set 2 1 (Value.int 7) true).2.get 2 1 =
        .ok (Value.int 7)) :=
  ⟨set_get_roundtrip.1 (Grid.init 3 3) (by decide) 1 2 (Value.str "A")
      (by decide) (by decide) (by decide) (by decide),
   set_get_roundtrip.2 (SerpentineGrid.init .TOP_RIGHT 3 3) (by decide) (by decide)
      2 1 (Value.int 7) (by decide) (by decide) (by decide) (by decide)⟩

/-- Claim C4: `_get_serpentine_point(x, y)` equals `y*height` plus offset x or
width-1-x according to the pattern and the parity of y, exactly as the code
computes it (note the stride is `height`, not `width`). -/
theorem serpentine_point_formula (g : SerpentineGrid) (x y : Nat)
    (hx : x < g.width) (hy : y < g.height) :
    (g.pattern = .TOP_LEFT → y % 2 = 0 →
      g.get_serpentine_point x y = y * g.height + x) ∧
    (g.pattern = .TOP_LEFT → y % 2 = 1 →
      g.get_serpentine_point x y = y * g.height + (g.width - 1 - x)) ∧
    (g.pattern = .TOP_RIGHT → y % 2 = 0 →
      g.get_serpentine_point x y = y * g.height + (g.width - 1 - x)) ∧
    (g.pattern = .TOP_RIGHT → y % 2 = 1 →
      g.get_serpentine_point x y = y * g.height + x) := by
  refine ⟨fun hp hpar => ?_, fun hp hpar => ?_, fun hp hpar => ?_, fun hp hpar => ?_⟩
  · unfold SerpentineGrid.get_serpentine_point
    rw [hp]
    dsimp only
    rw [if_pos (show (y % 2 == 0) = true by simp [hpar])]
  · unfold SerpentineGrid.get_serpentine_point
    rw [hp]
    dsimp only
    rw [if_neg (show ¬(y % 2 == 0) = true by simp [hpar])]
    omega
  · unfold SerpentineGrid.get_serpentine_point
    rw [hp]
    dsimp only
    rw [if_pos (show (y % 2 == 0) = true by simp [hpar])]
    omega
  · unfold SerpentineGrid.get_serpentine_point
    rw [hp]
    dsimp only
    rw [if_neg (show ¬(y % 2 == 0) = true by simp [hpar])]

/-- Witness for the serpentine index formula at concrete inputs. -/
theorem serpentine_point_formula_witness :
    (SerpentineGrid.init .TOP_LEFT 3 3).get_serpentine_point 1 2 = 2 * 3 + 1 ∧
    (SerpentineGrid.init .TOP_RIGHT 3 3).get_serpentine_point 1 1 = 1 * 3 + 1 :=
  ⟨(serpentine_point_formula (SerpentineGrid.init .TOP_LEFT 3 3) 1 2
      (by decide) (by decide)).1 rfl (by decide),
   (serpentine_point_formula (SerpentineGrid.init .TOP_RIGHT 3 3) 1 1
      (by decide) (by decide)).2.2.2 rfl (by decide)⟩


/-- Claim C1 (amended): when the stored value is not a 3/4-tuple, `LEDGrid.set` raises the assert
(`InvalidPixelFormat`) without invoking the driver — but only after
`super().set` has already mutated the grid: the final state is the mutated
state of the underlying serpentine `set`. -/
theorem LEDGrid.set_invalid (g : SerpentineGrid) (x y : Int) (v : Value) (a : Bool)
    (g1 : SerpentineGrid) (hv : isPixelTuple v = false)
    (hset : SerpentineGrid.set g x y v a = (Option.none, g1)) :
    LEDGrid.set g x y v a = (Option.some .invalidPixelFormat, g1, []) := by
  unfold LEDGrid.set
  rw [hset]
  cases v with
  | tup l =>
    dsimp only
    simp only [isPixelTuple] at hv
    rw [if_neg (by simpa using hv)]
  | str s => rfl
  | int n => rfl
  | none => rfl

/-- Claim C5: when the stored value is a 3/4-tuple and the underlying `set` succeeds (the cell permits the write),
`LEDGrid.set` stores it and then invokes the driver exactly once, with the
serpentine index of (x, y) and the tuple components, and `get` reads the
tuple back from the final state. -/
theorem LEDGrid.set_drives (g : SerpentineGrid) (x y : Int) (l : List Int) (a : Bool)
    (g1 : SerpentineGrid) (hlen : l.length = 3 ∨ l.length = 4)
    (hset : SerpentineGrid.set g x y (Value.tup l) a = (Option.none, g1)) :
    LEDGrid.set g x y (Value.tup l) a =
      (Option.none, g1, [(g1.get_serpentine_point x.toNat y.toNat, l)]) ∧
    g1.get_serpentine_point x.toNat y.toNat = g.get_serpentine_point x.toNat y.toNat ∧
    g1.get x y = .ok (Value.tup l) := by
  refine ⟨?_, ?_, SerpentineGrid.set_ok_roundtrip _ _ _ _ _ _ hset⟩
  · unfold LEDGrid.set
    rw [hset]
    dsimp only
    rw [if_pos hlen]
  · have hs := SerpentineGrid.set_shape g x y (Value.tup l) a
    rw [hset] at hs
    exact SerpentineGrid.point_congr g g1 hs.1 hs.2.1 hs.2.2.1 _ _

/-- Witness for `LEDGrid.set_invalid` at the concrete input (0, 0, "red") on a
fresh 3×3 grid. -/
theorem ledgrid_set_invalid_witness :
    isPixelTuple (Value.str "red") = false ∧
    LEDGrid.set (SerpentineGrid.init .TOP_LEFT 3 3) 0 0 (Value.str "red") false =
      (Option.some .invalidPixelFormat,
       ((SerpentineGrid.init .TOP_LEFT 3 3).set 0 0 (Value.str "red") false).2, []) :=
  ⟨rfl, LEDGrid.set_invalid (SerpentineGrid.init .TOP_LEFT 3 3) 0 0 (Value.str "red") false
      ((SerpentineGrid.init .TOP_LEFT 3 3).set 0 0 (Value.str "red") false).2 rfl rfl⟩

/-- Witness for `LEDGrid.set_drives` at the concrete input (1, 1, (255,0,0))
on a fresh 3×3 grid: the driver is called once, at serpentine index 4. -/
theorem ledgrid_set_drives_witness :
    LEDGrid.set (SerpentineGrid.init .TOP_LEFT 3 3) 1 1 (Value.tup [255, 0, 0]) false =
      (Option.none,
       ((SerpentineGrid.init .TOP_LEFT 3 3).set 1 1 (Value.tup [255, 0, 0]) false).2,
       [(4, [255, 0, 0])]) := by
  have h := LEDGrid.set_drives (SerpentineGrid.init .TOP_LEFT 3 3) 1 1 [255, 0, 0] false
    ((SerpentineGrid.init .TOP_LEFT 3 3).set 1 1 (Value.tup [255, 0, 0]) false).2
    (Or.inl rfl) rfl
  exact h.1.trans (by rfl)

/-- Claim C6: whenever a public operation (get, set, all_items, by_rows,
next_in_direction, render) raises `OutOfRange` or `AlreadyFilled`, the grid
state — storage, width, height, largestlength — is exactly as before the
call, for both Grid and SerpentineGrid. -/
theorem error_frame :
    (∀ (g : Grid) (op : GridOp) (e : GridErr) (g1 : Grid),
        g.run op = (.error e, g1) → e = .outOfRange ∨ e = .alreadyFilled → g1 = g) ∧
    (∀ (g : SerpentineGrid) (op : GridOp) (e : GridErr) (g1 : SerpentineGrid),
        g.run op = (.error e, g1) → e = .outOfRange ∨ e = .alreadyFilled → g1 = g) :=
  ⟨Grid.cart_run_err_frame, SerpentineGrid.run_err_frame⟩

/-- Witness for `error_frame`: an `AlreadyFilled` set on an occupied Cartesian
cell and an `OutOfRange` get on a serpentine grid both leave the state intact. -/
theorem error_frame_witness :
    (demoFilledGrid.run (GridOp.set 0 0 (Value.str "B") false)).2 = demoFilledGrid ∧
    ((SerpentineGrid.init .TOP_LEFT 3 3).run (GridOp.get 5 0)).2 =
      SerpentineGrid.init .TOP_LEFT 3 3 :=
  ⟨error_frame.1 demoFilledGrid (GridOp.set 0 0 (Value.str "B") false) GridErr.alreadyFilled
      (demoFilledGrid.run (GridOp.set 0 0 (Value.str "B") false)).2 rfl (Or.inr rfl),
   error_frame.2 (SerpentineGrid.init .TOP_LEFT 3 3) (GridOp.get 5 0) GridErr.outOfRange
      ((SerpentineGrid.init .TOP_LEFT 3 3).run (GridOp.get 5 0)).2 rfl (Or.inl rfl)⟩

/-- Claim C8 (amended): for every Grid and SerpentineGrid and every in-bounds
(x, y) whose cell is readable (`get` returns a value — for SerpentineGrid this
excludes in-bounds cells whose serpentine index falls outside the buffer,
which happens when width < height, see the counterexample): `set` with
allow_overwrite false fails with `AlreadyFilled` exactly when the current
value is truthy, and with allow_overwrite true it succeeds and replaces the
stored value. -/
theorem set_already_filled_characterization :
    (∀ (g : Grid) (x y : Int) (v c : Value), g.get x y = .ok c →
        ((g.set x y v false).1 = Option.some .alreadyFilled ↔ pyTruthy c = true) ∧
        (g.set x y v true).1 = Option.none ∧
        (g.set x y v true).2.get x y = .ok v) ∧
    (∀ (g : SerpentineGrid) (x y : Int) (v c : Value), g.get x y = .ok c →
        ((g.set x y v false).1 = Option.some .alreadyFilled ↔ pyTruthy c = true) ∧
        (g.set x y v true).1 = Option.none ∧
        (g.set x y v true).2.get x y = .ok v) := by
  constructor
  · intro g x y v c hget
    obtain ⟨hbx, hby, row, hrow, hcell⟩ := Grid.cart_get_ok_inv _ _ _ _ hget
    have hx : x.toNat < row.length := by
      by_contra hc
      rw [List.getElem?_eq_none (by omega)] at hcell
      cases hcell
    have h1 := Grid.cart_set_ok g x y v true row hbx hby hrow hx (Or.inl rfl)
    have hset : g.set x y v true = (Option.none, (g.set x y v true).2) := by rw [← h1]
    exact ⟨Grid.cart_set_filled_iff g x y v c hget, h1, Grid.cart_set_ok_roundtrip _ _ _ _ _ _ hset⟩
  · intro g x y v c hget
    obtain ⟨hbx, hby, hcoord, hslot⟩ := SerpentineGrid.get_ok_inv _ _ _ _ hget
    have h1 := SerpentineGrid.set_ok g x y v true hbx hby hcoord (Or.inl rfl)
    have hset : g.set x y v true = (Option.none, (g.set x y v true).2) := by rw [← h1]
    exact ⟨SerpentineGrid.set_filled_iff g x y v c hget, h1,
      SerpentineGrid.set_ok_roundtrip _ _ _ _ _ _ hset⟩

/-- Witness for the `AlreadyFilled` characterization: an occupied Cartesian
cell (truthy "A") and an empty serpentine cell (falsy ""). -/
theorem set_already_filled_witness :
    (((demoFilledGrid.set 0 0 (Value.int 5) false).1 = Option.some .alreadyFilled ↔
        pyTruthy (Value.str "A") = true) ∧
      (demoFilledGrid.set 0 0 (Value.int 5) true).1 = Option.none ∧
      (demoFilledGrid.set 0 0 (Value.int 5) true).2.get 0 0 = .ok (Value.int 5)) ∧
    ((((SerpentineGrid.init .TOP_RIGHT 3 3).set 1 1 (Value.int 6) false).1 =
        Option.some .alreadyFilled ↔ pyTruthy (Value.str "") = true) ∧
      ((SerpentineGrid.init .TOP_RIGHT 3 3).set 1 1 (Value.int 6) true).1 = Option.none ∧
      ((SerpentineGrid.init .TOP_RIGHT 3 3).set 1 1 (Value.int 6) true).2.get 1 1 =
        .ok (Value.int 6)) :=
  ⟨set_already_filled_characterization.1 demoFilledGrid 0 0 (Value.int 5) (Value.str "A") rfl,
   set_already_filled_characterization.2 (SerpentineGrid.init .TOP_RIGHT 3 3) 1 1
      (Value.int 6) (Value.str "") rfl⟩

/-- Claim C9: `largestlength` starts at 3, a successful `set` updates it to
the maximum of its previous value and the stringified length of the stored
value, and it never decreases across any sequence of public operations. -/
theorem largestlength_invariant :
    (∀ w h, (Grid.init w h).largestlength = 3) ∧
    (∀ (g : Grid) (x y : Int) (v : Value) (a : Bool) (g1 : Grid),
        g.set x y v a = (Option.none, g1) →
        g1.largestlength = max g.largestlength (pyStr v).length) ∧
    (∀ (g : Grid) (ops : List GridOp),
        g.largestlength ≤ (ops.foldl (fun s op => (Grid.run s op).2) g).largestlength) :=
  ⟨fun _ _ => rfl, Grid.cart_set_ok_largest, Grid.runs_largest_mono⟩

/-- Witness for the `largestlength` invariant: storing "hello" raises it from
3 to max 3 5 = 5, and it is still ≥ 3 after a further shorter store. -/
theorem largestlength_invariant_witness :
    (Grid.init 3 3).largestlength = 3 ∧
    ((Grid.init 3 3).set 0 0 (Value.str "hello") false).2.largestlength =
      max (Grid.init 3 3).largestlength (pyStr (Value.str "hello")).length ∧
    (Grid.init 3 3).largestlength ≤
      ([GridOp.set 0 0 (Value.str "hello") false, GridOp.set 1 0 (Value.str "a") false].foldl
        (fun s op => (Grid.run s op).2) (Grid.init 3 3)).largestlength :=
  ⟨largestlength_invariant.1 3 3,
   largestlength_invariant.2.1 (Grid.init 3 3) 0 0 (Value.str "hello") false
      ((Grid.init 3 3).set 0 0 (Value.str "hello") false).2 rfl,
   largestlength_invariant.2.2 (Grid.init 3 3)
      [GridOp.set 0 0 (Value.str "hello") false, GridOp.set 1 0 (Value.str "a") false]⟩

/-- Claim C10: the observer operations (get, all_items, by_rows,
next_in_direction, render) leave the entire grid state unchanged, whether
they succeed or raise, for both Grid and SerpentineGrid. -/
theorem observer_frame :
    (∀ (g : Grid) (op : GridOp), op.isObserver = true → (g.run op).2 = g) ∧
    (∀ (g : SerpentineGrid) (op : GridOp), op.isObserver = true → (g.run op).2 = g) :=
  ⟨Grid.cart_run_observer_frame, SerpentineGrid.run_observer_frame⟩

/-- Witness for the observer frame property at concrete operations. -/
theorem observer_frame_witness :
    ((Grid.init 3 3).run GridOp.render).2 = Grid.init 3 3 ∧
    ((SerpentineGrid.init .TOP_RIGHT 3 3).run GridOp.all_items).2 =
      SerpentineGrid.init .TOP_RIGHT 3 3 :=
  ⟨observer_frame.1 (Grid.init 3 3) GridOp.render rfl,
   observer_frame.2 (SerpentineGrid.init .TOP_RIGHT 3 3) GridOp.all_items rfl⟩
